import Mathlib

/-
Shallow embedding of the svelte-scrollspy visibility tracker.

Source of truth: `src/lib/index.ts` (`createScrollSpy` with its inner
functions `spy`, `unspy`, `unspyAll`, `setTargetActive`,
`setTargetUnactive`, `isActive`, and the IntersectionObserver callback)
and the derived section tracker (`sectionSpy.spy` with its kebab-case
label derivation).

Modelling choices:
- A DOM element is an opaque handle with reference identity: `Elem := Nat`.
  An element's immutable `id` property is a parameter `eid : Elem → String`
  (the empty string models an element without an id, as in the DOM).
- The two JS `Set`s (`targets`, `activeTargets`) are insertion-ordered
  duplicate-free lists; `Set.add` appends when absent, `Set.delete` erases.
- `document.getElementById` is a parameter `lookup : String → Option Elem`.
- The tracker is created either with an `IntersectionObserver` available
  (`obs = true`) or in the fallback branch of `createScrollSpy`
  (`obs = false`).  In the fallback branch the early `return` fires before
  the `const observer = ...` (and `const reportUpdates = ...`) lines run,
  so the hoisted closures `spy`/`unspy`/`unspyAll` reference uninitialized
  `const` bindings: reaching `observer.observe` / `observer.unobserve` /
  `observer.disconnect` raises a ReferenceError (temporal dead zone).
  The model records whether a call threw, together with the state at the
  moment of the throw (mutations performed before the throwing statement
  are kept, exactly as in JS).
- `reportUpdates()` (one svelte-store notification) is modelled by a
  per-call notification count.
-/

/-- Opaque element handle; identity is handle equality (JS reference
equality). -/
abbrev Elem := Nat

/-- The mutable closure state of one `createScrollSpy` store: the ordered
target set, the ordered active-target set and `lastActiveTarget`. -/
structure SpyState where
  targets : List Elem
  activeTargets : List Elem
  lastActiveTarget : Option Elem
deriving DecidableEq, Repr

/-- JS `Set.prototype.add`: append if absent (insertion order kept). -/
def setAdd (s : List Elem) (x : Elem) : List Elem :=
  if x ∈ s then s else s ++ [x]

/-- JS `Set.prototype.delete`. -/
def setDelete (s : List Elem) (x : Elem) : List Elem :=
  s.erase x

/-- `setTargetActive(target)`: `activeTargets.delete(target);
activeTargets.add(target); lastActiveTarget = target;`. -/
def setTargetActive (s : SpyState) (t : Elem) : SpyState :=
  { s with
    activeTargets := setAdd (setDelete s.activeTargets t) t
    lastActiveTarget := some t }

/-- `setTargetUnactive(target)`: `activeTargets.delete(target);`. -/
def setTargetUnactive (s : SpyState) (t : Elem) : SpyState :=
  { s with activeTargets := setDelete s.activeTargets t }

/-- `isActive(target)`: `true` if in `activeTargets`, `null` (here `none`)
if not in `targets`, else `false` — in that order of tests. -/
def isActive (s : SpyState) (t : Elem) : Option Bool :=
  if t ∈ s.activeTargets then some true
  else if t ∉ s.targets then none
  else some false

/-- Argument of `spy`/`unspy`: a concrete element or an id string. -/
inductive Target where
  | elem : Elem → Target
  | byId : String → Target
deriving DecidableEq, Repr

/-- Result of a `spy` call: the call threw (fallback mode reached
`observer.observe`), returned `{}` (no `destroy` handle), or returned
`{ destroy }`. -/
inductive SpyOutcome where
  | threw
  | noHandle
  | handle
deriving DecidableEq, Repr

/-- `target instanceof Element ? target : document.getElementById(target)`. -/
def resolveTarget (lookup : String → Option Elem) : Target → Option Elem
  | Target.elem e => some e
  | Target.byId s => lookup s

/-- `spy(target)`: resolve; warn-and-return `{}` on unresolvable or
duplicate targets; otherwise `targets.add(elem); observer.observe(elem);
reportUpdates();` and return `{ destroy: () => unspy(elem) }`.  In fallback
mode (`obs = false`) the `observer.observe` line throws after the
`targets.add` mutation and before the notification.  Returns
(state, outcome, notification count). -/
def spy (obs : Bool) (lookup : String → Option Elem) (s : SpyState)
    (t : Target) : SpyState × SpyOutcome × Nat :=
  match resolveTarget lookup t with
  | none => (s, SpyOutcome.noHandle, 0)
  | some e =>
    if e ∈ s.targets then (s, SpyOutcome.noHandle, 0)
    else
      let s1 : SpyState := { s with targets := setAdd s.targets e }
      if obs then (s1, SpyOutcome.handle, 1) else (s1, SpyOutcome.threw, 0)

/-- Body of the `for (const elem of elems)` loop in `unspy`:
`observer.unobserve(elem); setTargetUnactive(elem);
if (lastActiveTarget === elem) lastActiveTarget = null;
targets.delete(elem);`. -/
def unspyStep (s : SpyState) (e : Elem) : SpyState :=
  let s1 := setTargetUnactive s e
  let s2 :=
    if s1.lastActiveTarget = some e then { s1 with lastActiveTarget := none }
    else s1
  { s2 with targets := setDelete s2.targets e }

/-- `unspy(target)`: on a string, filter registered targets by id and
warn-and-return early when there is no match (no notification); otherwise
run the loop over every resolved element and emit exactly one notification.
In fallback mode the first `observer.unobserve` of the loop throws before
any mutation.  Returns (state, whether the call threw, notification
count). -/
def unspy (obs : Bool) (eid : Elem → String) (s : SpyState) (t : Target) :
    SpyState × Bool × Nat :=
  match t with
  | Target.byId str =>
    let elems := s.targets.filter (fun e => eid e = str)
    if elems.isEmpty then (s, false, 0)
    else if obs then (elems.foldl unspyStep s, false, 1)
    else (s, true, 0)
  | Target.elem e =>
    if obs then (unspyStep s e, false, 1) else (s, true, 0)

/-- `unspyAll()`: `observer.disconnect(); activeTargets.clear();
lastActiveTarget = null; targets.clear(); reportUpdates();`.  In fallback
mode the `observer.disconnect()` line throws before any mutation. -/
def unspyAll (obs : Bool) (s : SpyState) : SpyState × Bool × Nat :=
  if obs then (⟨[], [], none⟩, false, 1) else (s, true, 0)

/-- The IntersectionObserver callback: for each entry apply
`setTargetActive`/`setTargetUnactive` by `isIntersecting` and notify once
per entry.  Returns (state, notification count). -/
def observerCallback (s : SpyState) (entries : List (Elem × Bool)) :
    SpyState × Nat :=
  entries.foldl
    (fun p entry =>
      (if entry.2 then setTargetActive p.1 entry.1
       else setTargetUnactive p.1 entry.1,
       p.2 + 1))
    (s, 0)

/-- The subset invariant of the spec: every active target is registered. -/
def SubsetInv (s : SpyState) : Prop :=
  ∀ e ∈ s.activeTargets, e ∈ s.targets

instance (s : SpyState) : Decidable (SubsetInv s) :=
  inferInstanceAs (Decidable (∀ e ∈ s.activeTargets, e ∈ s.targets))

/-- Well-formedness carried through the proofs: both ordered sets are
duplicate-free and every active target is registered. -/
def WFInv (s : SpyState) : Prop :=
  s.targets.Nodup ∧ s.activeTargets.Nodup ∧ SubsetInv s

/-- JS `id.replace` with the global regex hyphen-dot (pattern "-.", the
first replace of the label derivation) on the character list of the id:
each (non-overlapping, left-to-right) occurrence of a hyphen followed by a
character becomes a space followed by the uppercased character. -/
def replDash : List Char → List Char
  | [] => []
  | [c] => [c]
  | c :: d :: rest =>
    if c = '-' then ' ' :: Char.toUpper d :: replDash rest
    else c :: replDash (d :: rest)

/-- JS `.replace(/^(.)/, (m) => m.toUpperCase())`: uppercase the first
character, if any. -/
def capitalizeFirst : List Char → List Char
  | [] => []
  | c :: rest => Char.toUpper c :: rest

/-- The label derivation of `sectionSpy.spy` when no explicit label is
given: kebab-case id to capitalized words. -/
def deriveLabel (s : String) : String :=
  String.mk (capitalizeFirst (replDash s.data))

/-- Join a list of words with a separator character (used to describe ids
that are hyphen-separated token sequences, and the spec-side join with
spaces). -/
def joinWith (sep : Char) : List (List Char) → List Char
  | [] => []
  | [w] => w
  | w :: ws => w ++ sep :: joinWith sep ws

/-- Modelled from the spec side of the refinement claim: "the derived
label capitalizes each token": uppercase the first character of one
token. -/
def specCapitalize : List Char → List Char
  | [] => []
  | c :: rest => Char.toUpper c :: rest

/-- Modelled from the spec side of the refinement claim: "capitalizes each
token and joins them with spaces". -/
def specSectionLabel (tokens : List (List Char)) : List Char :=
  joinWith ' ' (tokens.map specCapitalize)

/-- `sectionSpy.spy(target, label?)`: resolve the target; reject (return
`{}`) when the element is not found or has no id; otherwise derive the
label when none is given, delegate to the wrapped tracker's `spy`, and
stamp `data-section-label` onto the element only when the delegated call
returned a `destroy` handle.  `attrs` is the element's
`data-section-label` attribute store.  Returns (state, attribute store,
whether a `destroy` handle was returned). -/
def sectionSpySpy (lookup : String → Option Elem) (eid : Elem → String)
    (s : SpyState) (attrs : Elem → Option String) (t : Target)
    (label : Option String) : SpyState × (Elem → Option String) × Bool :=
  match resolveTarget lookup t with
  | none => (s, attrs, false)
  | some e =>
    if eid e = "" then (s, attrs, false)
    else
      let lbl := label.getD (deriveLabel (eid e))
      match spy true lookup s (Target.elem e) with
      | (s1, SpyOutcome.handle, _) =>
        (s1, fun x => if x = e then some lbl else attrs x, true)
      | (s1, _, _) => (s1, attrs, false)

/-- Concrete id function: no element has an id. -/
def eid0 : Elem → String := fun _ => ""

/-- Concrete id function: every element has id `"intro-section"`. -/
def eidIntro : Elem → String := fun _ => "intro-section"

/-- Concrete lookup: `document.getElementById` finds nothing. -/
def lookup0 : String → Option Elem := fun _ => none

/-- Concrete attribute store: no element carries `data-section-label`. -/
def attrs0 : Elem → Option String := fun _ => none

/-- The state of a freshly created tracker. -/
def s0 : SpyState := ⟨[], [], none⟩

theorem mem_setAdd {l : List Elem} {x y : Elem} :
    y ∈ setAdd l x ↔ y ∈ l ∨ y = x := by
  unfold setAdd
  split
  · rename_i h
    constructor
    · exact Or.inl
    · rintro (hy | rfl)
      · exact hy
      · exact h
  · simp

theorem nodup_setAdd {l : List Elem} {x : Elem} (h : l.Nodup) :
    (setAdd l x).Nodup := by
  unfold setAdd
  split
  · exact h
  · rename_i hx
    simp [List.nodup_append, hx, h]

/-- Normal form of the body of the `unspy` loop. -/
theorem unspyStep_eq (s : SpyState) (e : Elem) :
    unspyStep s e =
      ⟨setDelete s.targets e, setDelete s.activeTargets e,
        if s.lastActiveTarget = some e then none else s.lastActiveTarget⟩ := by
  unfold unspyStep setTargetUnactive
  split <;> rename_i h <;> simp only [h] <;> split <;> simp_all


theorem unspyStep_wfInv {s : SpyState} (e : Elem) (h : WFInv s) :
    WFInv (unspyStep s e) := by
  obtain ⟨ht, ha, hs⟩ := h
  rw [unspyStep_eq]
  refine ⟨ht.erase e, ha.erase e, ?_⟩
  intro x hx
  simp only [setDelete] at hx ⊢
  rw [ha.mem_erase_iff] at hx
  exact (List.mem_erase_of_ne hx.1).mpr (hs x hx.2)

theorem foldl_unspyStep_wfInv (elems : List Elem) {s : SpyState}
    (h : WFInv s) : WFInv (elems.foldl unspyStep s) := by
  induction elems generalizing s with
  | nil => exact h
  | cons e rest ih => exact ih (unspyStep_wfInv e h)

/-- Characterization of the state produced by `spy` (the outcome and the
notification count are dropped). -/
theorem spy_fst (obs : Bool) (lookup : String → Option Elem) (s : SpyState)
    (t : Target) :
    (spy obs lookup s t).1 =
      match resolveTarget lookup t with
      | none => s
      | some e =>
        if e ∈ s.targets then s
        else { s with targets := setAdd s.targets e } := by
  unfold spy
  cases resolveTarget lookup t with
  | none => rfl
  | some e => cases obs <;> by_cases he : e ∈ s.targets <;> simp [he]

theorem spy_subsetInv (obs : Bool) (lookup : String → Option Elem)
    (s : SpyState) (t : Target) (hs : SubsetInv s) :
    SubsetInv (spy obs lookup s t).1 := by
  rw [spy_fst]
  cases resolveTarget lookup t with
  | none => exact hs
  | some e =>
    show SubsetInv
      (if e ∈ s.targets then s else { s with targets := setAdd s.targets e })
    by_cases he : e ∈ s.targets
    · rw [if_pos he]; exact hs
    · rw [if_neg he]
      intro x hx
      exact mem_setAdd.mpr (Or.inl (hs x hx))

theorem unspy_wfInv (obs : Bool) (eid : Elem → String) (s : SpyState)
    (t : Target) (h : WFInv s) : WFInv (unspy obs eid s t).1 := by
  unfold unspy
  cases t with
  | byId str =>
    simp only
    split
    · exact h
    · split
      · exact foldl_unspyStep_wfInv _ h
      · exact h
  | elem e =>
    simp only
    split
    · exact unspyStep_wfInv e h
    · exact h

theorem setTargetActive_subsetInv {s : SpyState} {e : Elem}
    (he : e ∈ s.targets) (hs : SubsetInv s) :
    SubsetInv (setTargetActive s e) := by
  intro x hx
  simp only [setTargetActive] at hx ⊢
  rcases mem_setAdd.mp hx with hx' | rfl
  · exact hs x (List.mem_of_mem_erase hx')
  · exact he

theorem setTargetUnactive_subsetInv {s : SpyState} (x : Elem)
    (hs : SubsetInv s) : SubsetInv (setTargetUnactive s x) := by
  intro z hz
  simp only [setTargetUnactive, setDelete] at hz
  exact hs z (List.mem_of_mem_erase hz)

/-- C1: in fallback mode (`IntersectionObserver` unavailable) the tracker
still exposes the operations, the claim says none of them throws and every
registered item stays inactive.  The code disagrees: the fallback branch
returns closures over the never-initialized `const observer`, so `spy` on a
fresh resolvable element throws a ReferenceError right after mutating
`targets` (and emits no notification), `unspy` on a concrete element
throws, and `unspyAll` throws; only the zero-match identifier path of
`unspy` returns without throwing.  The element added before the throw
indeed stays inactive. -/
theorem c1_fallback_mode_throws :
    (spy false lookup0 s0 (Target.elem 0)).2.1 = SpyOutcome.threw ∧
    (spy false lookup0 s0 (Target.elem 0)).1 = ⟨[0], [], none⟩ ∧
    (spy false lookup0 s0 (Target.elem 0)).2.2 = 0 ∧
    isActive (spy false lookup0 s0 (Target.elem 0)).1 0 = some false ∧
    (unspy false eid0 ⟨[0], [], none⟩ (Target.elem 0)).2.1 = true ∧
    (unspy false eid0 ⟨[0], [], none⟩ (Target.byId "x")).2.1 = false ∧
    (unspyAll false ⟨[0], [], none⟩).2.1 = true := by
  decide

/-- C2, counterexample: from the initial (subset-satisfying) state, an
activation event for an element that is not registered puts it into the
active set without putting it into the registration set, so the subset
invariant is not preserved by activation events for unregistered items. -/
theorem c2_counterexample :
    SubsetInv s0 ∧ (0 : Elem) ∉ s0.targets ∧
      ¬ SubsetInv (setTargetActive s0 0) := by
  decide

/-- C2, amended: on well-formed subset-satisfying states the subset
invariant is preserved by `spy`, `unspy`, `unspyAll`, by deactivation
events, and by activation events for currently registered items (the
unregistered-activation case is excluded: it is the counterexample). -/
theorem c2_subset_preserved (s : SpyState) (obs : Bool)
    (lookup : String → Option Elem) (eid : Elem → String) (t : Target)
    (e x : Elem) (ht : s.targets.Nodup) (ha : s.activeTargets.Nodup)
    (hs : SubsetInv s) (he : e ∈ s.targets) :
    SubsetInv (spy obs lookup s t).1 ∧ SubsetInv (unspy obs eid s t).1 ∧
      SubsetInv (unspyAll obs s).1 ∧ SubsetInv (setTargetUnactive s x) ∧
      SubsetInv (setTargetActive s e) := by
  refine ⟨spy_subsetInv obs lookup s t hs,
    (unspy_wfInv obs eid s t ⟨ht, ha, hs⟩).2.2, ?_,
    setTargetUnactive_subsetInv x hs, setTargetActive_subsetInv he hs⟩
  cases obs
  · exact hs
  · intro z hz
    simp [unspyAll] at hz

theorem c2_subset_preserved_witness :
    ((⟨[0, 1], [0], some 0⟩ : SpyState).targets.Nodup ∧
      (⟨[0, 1], [0], some 0⟩ : SpyState).activeTargets.Nodup ∧
      SubsetInv (⟨[0, 1], [0], some 0⟩ : SpyState) ∧
      (1 : Elem) ∈ (⟨[0, 1], [0], some 0⟩ : SpyState).targets) ∧
    (SubsetInv (spy true lookup0 ⟨[0, 1], [0], some 0⟩ (Target.elem 2)).1 ∧
      SubsetInv (unspy true eid0 ⟨[0, 1], [0], some 0⟩ (Target.elem 2)).1 ∧
      SubsetInv (unspyAll true ⟨[0, 1], [0], some 0⟩).1 ∧
      SubsetInv (setTargetUnactive ⟨[0, 1], [0], some 0⟩ 0) ∧
      SubsetInv (setTargetActive ⟨[0, 1], [0], some 0⟩ 1)) :=
  ⟨by decide,
    c2_subset_preserved ⟨[0, 1], [0], some 0⟩ true lookup0 eid0
      (Target.elem 2) 1 0 (by decide) (by decide) (by decide) (by decide)⟩

/-- C3, counterexample: the deregistration handle returned by `spy` is
`() => unspy(elem)` with no once-guard.  Register element 0 (getting a
handle), invoke the handle, register element 0 again, and invoke the handle
a second time: the second invocation unregisters the re-registered element,
so it is not a no-op on the tracker state. -/
theorem c3_counterexample :
    (spy true lookup0 s0 (Target.elem 0)).2.1 = SpyOutcome.handle ∧
    (unspy true eid0
        (spy true lookup0
            (unspy true eid0 (spy true lookup0 s0 (Target.elem 0)).1
              (Target.elem 0)).1
            (Target.elem 0)).1
        (Target.elem 0)).1 ≠
      (spy true lookup0
          (unspy true eid0 (spy true lookup0 s0 (Target.elem 0)).1
            (Target.elem 0)).1
          (Target.elem 0)).1 := by
  decide

/-- C3, amended: the handle performs `unspy` of exactly the registered
element on every invocation; on a well-formed state a second invocation
immediately after the first is a no-op on the tracker state, and more
generally an invocation is a no-op on any state in which the element is
unregistered, inactive and not the last-active pointer — i.e. whenever the
element was not re-registered (or re-activated by a stale event) in
between. -/
theorem c3_destroy_idempotent (s s' : SpyState) (eid : Elem → String)
    (e : Elem) (ht : s.targets.Nodup) (ha : s.activeTargets.Nodup)
    (h1 : e ∉ s'.targets) (h2 : e ∉ s'.activeTargets)
    (h3 : s'.lastActiveTarget ≠ some e) :
    (unspy true eid (unspy true eid s (Target.elem e)).1
        (Target.elem e)).1 =
      (unspy true eid s (Target.elem e)).1 ∧
    (unspy true eid s' (Target.elem e)).1 = s' := by
  have key : ∀ u : SpyState, e ∉ u.targets → e ∉ u.activeTargets →
      u.lastActiveTarget ≠ some e →
      (unspy true eid u (Target.elem e)).1 = u := by
    intro u hu1 hu2 hu3
    have hr : (unspy true eid u (Target.elem e)).1 = unspyStep u e := rfl
    rw [hr, unspyStep_eq]
    cases u with
    | mk tg ac la =>
      simp only [SpyState.mk.injEq, setDelete]
      exact ⟨List.erase_of_not_mem hu1, List.erase_of_not_mem hu2,
        if_neg hu3⟩
  have hu1 : e ∉ ((unspy true eid s (Target.elem e)).1).targets := by
    have hr : (unspy true eid s (Target.elem e)).1 = unspyStep s e := rfl
    rw [hr, unspyStep_eq]
    simp only [setDelete]
    intro hmem
    exact (ht.mem_erase_iff.mp hmem).1 rfl
  have hu2 : e ∉ ((unspy true eid s (Target.elem e)).1).activeTargets := by
    have hr : (unspy true eid s (Target.elem e)).1 = unspyStep s e := rfl
    rw [hr, unspyStep_eq]
    simp only [setDelete]
    intro hmem
    exact (ha.mem_erase_iff.mp hmem).1 rfl
  have hu3 :
      ((unspy true eid s (Target.elem e)).1).lastActiveTarget ≠ some e := by
    have hr : (unspy true eid s (Target.elem e)).1 = unspyStep s e := rfl
    rw [hr, unspyStep_eq]
    by_cases hl : s.lastActiveTarget = some e
    · simp [hl]
    · simp [hl]
  exact ⟨key _ hu1 hu2 hu3, key s' h1 h2 h3⟩

theorem c3_destroy_idempotent_witness :
    ((⟨[0], [0], some 0⟩ : SpyState).targets.Nodup ∧
      (⟨[0], [0], some 0⟩ : SpyState).activeTargets.Nodup ∧
      (0 : Elem) ∉ s0.targets ∧ (0 : Elem) ∉ s0.activeTargets ∧
      s0.lastActiveTarget ≠ some 0) ∧
    ((unspy true eid0
        (unspy true eid0 ⟨[0], [0], some 0⟩ (Target.elem 0)).1
        (Target.elem 0)).1 =
      (unspy true eid0 ⟨[0], [0], some 0⟩ (Target.elem 0)).1 ∧
      (unspy true eid0 s0 (Target.elem 0)).1 = s0) :=
  ⟨by decide,
    c3_destroy_idempotent ⟨[0], [0], some 0⟩ s0 eid0 0 (by decide)
      (by decide) (by decide) (by decide) (by decide)⟩

/-- C4: from a state with an empty active set, activating registered `a`
then registered `b` yields the active set `[a, b]` in order; re-activating
`a` yields `[b, a]` (remove-then-append reordering); and every activation
event sets `lastActiveTarget` to its element unconditionally (last
conjunct, over an arbitrary state). -/
theorem c4_activation_reorders (s s' : SpyState) (a b x : Elem)
    (hat : a ∈ s.targets) (hbt : b ∈ s.targets) (hab : a ≠ b)
    (hact : s.activeTargets = []) :
    (setTargetActive (setTargetActive s a) b).activeTargets = [a, b] ∧
    (setTargetActive (setTargetActive (setTargetActive s a) b)
        a).activeTargets = [b, a] ∧
    (setTargetActive s a).lastActiveTarget = some a ∧
    (setTargetActive (setTargetActive s a) b).lastActiveTarget = some b ∧
    (setTargetActive (setTargetActive (setTargetActive s a) b)
        a).lastActiveTarget = some a ∧
    (setTargetActive s' x).lastActiveTarget = some x := by
  have hba : b ≠ a := Ne.symm hab
  refine ⟨?_, ?_, rfl, rfl, rfl, rfl⟩ <;>
    simp [setTargetActive, setDelete, setAdd, hact, List.erase_cons, hab,
      hba]

theorem c4_activation_reorders_witness :
    ((5 : Elem) ∈ (⟨[5, 7], [], none⟩ : SpyState).targets ∧
      (7 : Elem) ∈ (⟨[5, 7], [], none⟩ : SpyState).targets ∧
      (5 : Elem) ≠ 7 ∧
      (⟨[5, 7], [], none⟩ : SpyState).activeTargets = []) ∧
    ((setTargetActive (setTargetActive ⟨[5, 7], [], none⟩ 5)
        7).activeTargets = [5, 7] ∧
      (setTargetActive (setTargetActive (setTargetActive ⟨[5, 7], [], none⟩
          5) 7) 5).activeTargets = [7, 5] ∧
      (setTargetActive (⟨[5, 7], [], none⟩ : SpyState)
          5).lastActiveTarget = some 5 ∧
      (setTargetActive (setTargetActive ⟨[5, 7], [], none⟩ 5)
          7).lastActiveTarget = some 7 ∧
      (setTargetActive (setTargetActive (setTargetActive ⟨[5, 7], [], none⟩
          5) 7) 5).lastActiveTarget = some 5 ∧
      (setTargetActive s0 3).lastActiveTarget = some 3) :=
  ⟨by decide,
    c4_activation_reorders ⟨[5, 7], [], none⟩ s0 5 7 3 (by decide)
      (by decide) (by decide) (by decide)⟩

/-- C5: under the subset invariant, `isActive` is exactly three-valued as
the spec states: `some true` on active targets, `some false` on registered
but inactive targets, `none` on unregistered elements (hence on any element
never registered). -/
theorem c5_isActive_three_valued (s : SpyState) (e : Elem)
    (hs : SubsetInv s) :
    (e ∈ s.activeTargets → isActive s e = some true) ∧
    (e ∈ s.targets → e ∉ s.activeTargets → isActive s e = some false) ∧
    (e ∉ s.targets → isActive s e = none) := by
  refine ⟨?_, ?_, ?_⟩
  · intro h
    simp [isActive, h]
  · intro h hn
    simp [isActive, hn, h]
  · intro h
    have hn : e ∉ s.activeTargets := fun hx => h (hs e hx)
    simp [isActive, hn, h]

theorem c5_isActive_three_valued_witness :
    SubsetInv (⟨[0, 1], [0], some 0⟩ : SpyState) ∧
    isActive ⟨[0, 1], [0], some 0⟩ 0 = some true ∧
    isActive ⟨[0, 1], [0], some 0⟩ 1 = some false ∧
    isActive ⟨[0, 1], [0], some 0⟩ 2 = none :=
  ⟨by decide,
    (c5_isActive_three_valued ⟨[0, 1], [0], some 0⟩ 0 (by decide)).1
      (by decide),
    (c5_isActive_three_valued ⟨[0, 1], [0], some 0⟩ 1 (by decide)).2.1
      (by decide) (by decide),
    (c5_isActive_three_valued ⟨[0, 1], [0], some 0⟩ 2 (by decide)).2.2
      (by decide)⟩

/-- C6: a deactivation event removes its element from the active set (if
present) and changes nothing else: the registration set and
`lastActiveTarget` are untouched — even when `lastActiveTarget` references
the deactivated element, since `setTargetUnactive` never reads it. -/
theorem c6_deactivation_frame (s : SpyState) (e x : Elem) :
    (setTargetUnactive s e).targets = s.targets ∧
    (setTargetUnactive s e).lastActiveTarget = s.lastActiveTarget ∧
    (setTargetUnactive s e).activeTargets = s.activeTargets.erase e ∧
    (x ≠ e → (x ∈ (setTargetUnactive s e).activeTargets ↔
      x ∈ s.activeTargets)) ∧
    (s.activeTargets.Nodup → e ∉ (setTargetUnactive s e).activeTargets) := by
  refine ⟨rfl, rfl, rfl, ?_, ?_⟩
  · intro hne
    simp only [setTargetUnactive, setDelete]
    exact List.mem_erase_of_ne hne
  · intro hnd
    simp only [setTargetUnactive, setDelete]
    intro hmem
    exact (hnd.mem_erase_iff.mp hmem).1 rfl

theorem c6_deactivation_frame_witness :
    ((1 : Elem) ≠ 0 ∧
      (⟨[0, 1], [0, 1], some 0⟩ : SpyState).activeTargets.Nodup) ∧
    ((setTargetUnactive ⟨[0, 1], [0, 1], some 0⟩ 0).targets = [0, 1] ∧
      (setTargetUnactive ⟨[0, 1], [0, 1], some 0⟩ 0).lastActiveTarget =
        some 0 ∧
      (setTargetUnactive ⟨[0, 1], [0, 1], some 0⟩ 0).activeTargets =
        [0, 1].erase 0 ∧
      ((1 : Elem) ∈ (setTargetUnactive ⟨[0, 1], [0, 1], some 0⟩
          0).activeTargets ↔ (1 : Elem) ∈ [0, 1]) ∧
      (0 : Elem) ∉ (setTargetUnactive ⟨[0, 1], [0, 1], some 0⟩
        0).activeTargets) :=
  ⟨by decide,
    (c6_deactivation_frame ⟨[0, 1], [0, 1], some 0⟩ 0 1).1,
    (c6_deactivation_frame ⟨[0, 1], [0, 1], some 0⟩ 0 1).2.1,
    (c6_deactivation_frame ⟨[0, 1], [0, 1], some 0⟩ 0 1).2.2.1,
    (c6_deactivation_frame ⟨[0, 1], [0, 1], some 0⟩ 0 1).2.2.2.1
      (by decide),
    (c6_deactivation_frame ⟨[0, 1], [0, 1], some 0⟩ 0 1).2.2.2.2
      (by decide)⟩

/-- C7: `unspy` on a concrete element clears `lastActiveTarget` exactly
when it referenced that element (it survives unchanged when it references
another element), and removes the element from both the active set and the
registration set. -/
theorem c7_unspy_lastActive (s : SpyState) (eid : Elem → String)
    (x y : Elem) (ht : s.targets.Nodup) (ha : s.activeTargets.Nodup) :
    (s.lastActiveTarget = some x →
      (unspy true eid s (Target.elem x)).1.lastActiveTarget = none) ∧
    (s.lastActiveTarget = some y → y ≠ x →
      (unspy true eid s (Target.elem x)).1.lastActiveTarget = some y) ∧
    x ∉ (unspy true eid s (Target.elem x)).1.activeTargets ∧
    x ∉ (unspy true eid s (Target.elem x)).1.targets := by
  have hr : (unspy true eid s (Target.elem x)).1 = unspyStep s x := rfl
  rw [hr, unspyStep_eq]
  refine ⟨?_, ?_, ?_, ?_⟩
  · intro h
    simp [h]
  · intro h hne
    simp [h, hne]
  · simp only [setDelete]
    intro hmem
    exact (ha.mem_erase_iff.mp hmem).1 rfl
  · simp only [setDelete]
    intro hmem
    exact (ht.mem_erase_iff.mp hmem).1 rfl

theorem c7_unspy_lastActive_witness :
    ((⟨[0, 1], [1], some 1⟩ : SpyState).targets.Nodup ∧
      (⟨[0, 1], [1], some 1⟩ : SpyState).activeTargets.Nodup ∧
      (⟨[0, 1], [1], some 1⟩ : SpyState).lastActiveTarget = some 1 ∧
      (1 : Elem) ≠ 0) ∧
    ((unspy true eid0 ⟨[0, 1], [1], some 1⟩
        (Target.elem 1)).1.lastActiveTarget = none ∧
      (unspy true eid0 ⟨[0, 1], [1], some 1⟩
        (Target.elem 0)).1.lastActiveTarget = some 1 ∧
      (1 : Elem) ∉ (unspy true eid0 ⟨[0, 1], [1], some 1⟩
        (Target.elem 1)).1.activeTargets ∧
      (1 : Elem) ∉ (unspy true eid0 ⟨[0, 1], [1], some 1⟩
        (Target.elem 1)).1.targets) :=
  ⟨by decide,
    (c7_unspy_lastActive ⟨[0, 1], [1], some 1⟩ eid0 1 0 (by decide)
        (by decide)).1 (by decide),
    (c7_unspy_lastActive ⟨[0, 1], [1], some 1⟩ eid0 0 1 (by decide)
        (by decide)).2.1 (by decide) (by decide),
    (c7_unspy_lastActive ⟨[0, 1], [1], some 1⟩ eid0 1 0 (by decide)
        (by decide)).2.2.1,
    (c7_unspy_lastActive ⟨[0, 1], [1], some 1⟩ eid0 1 0 (by decide)
        (by decide)).2.2.2⟩

/-- C8, counterexample: `unspy` with an identifier that matches no
registered target warns and returns before `reportUpdates()`, so it emits
zero snapshot notifications, not one as the claim states. -/
theorem c8_counterexample :
    unspy true eid0 s0 (Target.byId "x") = (s0, false, 0) ∧
    (unspy true eid0 s0 (Target.byId "x")).2.2 ≠ 1 := by
  decide

/-- C8, amended: `unspy` emits exactly one batched snapshot notification
for every concrete-element call (registered or not) and for every
identifier call with at least one match (including the ambiguous
multi-match case); the zero-match identifier call emits none. -/
theorem c8_notification_batching (s : SpyState) (eid : Elem → String)
    (e : Elem) (str : String) :
    (unspy true eid s (Target.elem e)).2.2 = 1 ∧
    (unspy true eid s (Target.byId str)).2.2 =
      (if (s.targets.filter (fun z => eid z = str)).isEmpty then 0
       else 1) := by
  constructor
  · rfl
  · by_cases hemp : (s.targets.filter (fun z => eid z = str)).isEmpty
    · simp [unspy, hemp]
    · simp [unspy, hemp]

theorem replDash_append_of_no_dash :
    ∀ (w rest : List Char), (∀ c ∈ w, c ≠ '-') →
      replDash (w ++ rest) = w ++ replDash rest
  | [], rest, _ => by simp
  | c :: w, rest, hw => by
    have hc : c ≠ '-' := hw c (List.mem_cons_self c w)
    have ih := replDash_append_of_no_dash w rest
      (fun z hz => hw z (List.mem_cons_of_mem c hz))
    cases hwr : w ++ rest with
    | nil =>
      rcases List.append_eq_nil.mp hwr with ⟨hw1, hw2⟩
      subst hw1
      subst hw2
      simp [replDash]
    | cons d tail =>
      rw [List.cons_append, hwr]
      show replDash (c :: d :: tail) = c :: (w ++ replDash rest)
      rw [replDash, if_neg hc, ← hwr, ih]

theorem replDash_dash_join :
    ∀ (ws : List (List Char)), (∀ w ∈ ws, w ≠ [] ∧ ∀ c ∈ w, c ≠ '-') →
      ws ≠ [] →
      replDash ('-' :: joinWith '-' ws) =
        ' ' :: joinWith ' ' (ws.map capitalizeFirst)
  | [], _, h0 => absurd rfl h0
  | [w], hw, _ => by
    obtain ⟨hne, hnd⟩ := hw w (by simp)
    obtain ⟨c, w', rfl⟩ := List.exists_cons_of_ne_nil hne
    show replDash ('-' :: c :: w') =
      ' ' :: joinWith ' ' [capitalizeFirst (c :: w')]
    rw [replDash, if_pos rfl]
    have hw' : replDash w' = w' := by
      have h := replDash_append_of_no_dash w' []
        (fun z hz => hnd z (List.mem_cons_of_mem c hz))
      simpa [replDash] using h
    rw [hw']
    rfl
  | w :: w2 :: ws, hw, _ => by
    obtain ⟨hne, hnd⟩ := hw w (by simp)
    obtain ⟨c, w', rfl⟩ := List.exists_cons_of_ne_nil hne
    have ih := replDash_dash_join (w2 :: ws)
      (fun z hz => hw z (List.mem_cons_of_mem _ hz)) (by simp)
    show replDash ('-' :: ((c :: w') ++ '-' :: joinWith '-' (w2 :: ws))) =
      ' ' :: joinWith ' '
        (capitalizeFirst (c :: w') :: (w2 :: ws).map capitalizeFirst)
    rw [List.cons_append, replDash, if_pos rfl]
    rw [replDash_append_of_no_dash w' ('-' :: joinWith '-' (w2 :: ws))
      (fun z hz => hnd z (List.mem_cons_of_mem c hz))]
    rw [ih]
    show ' ' :: Char.toUpper c :: (w' ++ ' ' :: joinWith ' '
        ((w2 :: ws).map capitalizeFirst)) =
      ' ' :: ((Char.toUpper c :: w') ++ ' ' :: joinWith ' '
        ((w2 :: ws).map capitalizeFirst))
    rw [List.cons_append]

theorem specCapitalize_eq_capitalizeFirst (w : List Char) :
    specCapitalize w = capitalizeFirst w := by
  cases w <;> rfl

/-- C9: when an id is a hyphen-separated sequence of nonempty lowercase
tokens and no explicit label is given, the derived label of
`sectionSpy.spy` equals the spec-side label: each token capitalized, the
tokens joined with spaces. -/
theorem c9_label_derivation (tokens : List (List Char)) (h0 : tokens ≠ [])
    (h : ∀ w ∈ tokens, w ≠ [] ∧ ∀ c ∈ w, c.isLower = true) :
    deriveLabel (String.mk (joinWith '-' tokens)) =
      String.mk (specSectionLabel tokens) := by
  have hnd : ∀ w ∈ tokens, w ≠ [] ∧ ∀ c ∈ w, c ≠ '-' := by
    intro w hw
    obtain ⟨h1, h2⟩ := h w hw
    refine ⟨h1, fun c hc hceq => ?_⟩
    have hl := h2 c hc
    rw [hceq] at hl
    exact absurd hl (by decide)
  show String.mk (capitalizeFirst (replDash (joinWith '-' tokens))) =
    String.mk (specSectionLabel tokens)
  have hmap : ∀ ws : List (List Char),
      ws.map specCapitalize = ws.map capitalizeFirst := by
    intro ws
    simp [specCapitalize_eq_capitalizeFirst]
  congr 1
  cases tokens with
  | nil => exact absurd rfl h0
  | cons w ws =>
    cases ws with
    | nil =>
      obtain ⟨hne, hw⟩ := hnd w (by simp)
      have hrw : replDash w = w := by
        have hap := replDash_append_of_no_dash w [] hw
        simpa [replDash] using hap
      show capitalizeFirst (replDash w) = specSectionLabel [w]
      rw [hrw]
      simp [specSectionLabel, joinWith, specCapitalize_eq_capitalizeFirst]
    | cons w2 ws' =>
      obtain ⟨hne, hw⟩ := hnd w (by simp)
      obtain ⟨c, w', rfl⟩ := List.exists_cons_of_ne_nil hne
      have hjd := replDash_dash_join (w2 :: ws')
        (fun z hz => hnd z (List.mem_cons_of_mem _ hz)) (by simp)
      show capitalizeFirst
          (replDash ((c :: w') ++ '-' :: joinWith '-' (w2 :: ws'))) =
        specSectionLabel ((c :: w') :: w2 :: ws')
      rw [replDash_append_of_no_dash (c :: w')
        ('-' :: joinWith '-' (w2 :: ws')) hw]
      rw [hjd]
      show Char.toUpper c ::
          (w' ++ ' ' :: joinWith ' ' ((w2 :: ws').map capitalizeFirst)) =
        specSectionLabel ((c :: w') :: w2 :: ws')
      simp only [specSectionLabel, List.map_cons, hmap]
      show Char.toUpper c ::
          (w' ++ ' ' :: joinWith ' ' ((w2 :: ws').map capitalizeFirst)) =
        joinWith ' ' (specCapitalize (c :: w') ::
          capitalizeFirst w2 :: ws'.map capitalizeFirst)
      show Char.toUpper c ::
          (w' ++ ' ' :: joinWith ' ' ((w2 :: ws').map capitalizeFirst)) =
        (Char.toUpper c :: w') ++ ' ' :: joinWith ' '
          (capitalizeFirst w2 :: ws'.map capitalizeFirst)
      rw [List.cons_append]
      rfl

theorem c9_label_derivation_witness :
    ((["intro".data, "section".data] : List (List Char)) ≠ [] ∧
      ∀ w ∈ (["intro".data, "section".data] : List (List Char)),
        w ≠ [] ∧ ∀ c ∈ w, c.isLower = true) ∧
    deriveLabel (String.mk (joinWith '-' ["intro".data, "section".data])) =
      String.mk (specSectionLabel ["intro".data, "section".data]) ∧
    String.mk (joinWith '-' ["intro".data, "section".data]) =
      "intro-section" ∧
    String.mk (specSectionLabel ["intro".data, "section".data]) =
      "Intro Section" :=
  ⟨by decide, c9_label_derivation _ (by decide) (by decide), by decide,
    by decide⟩

/-- Characterization of `sectionSpy.spy`: the three rejection paths return
the attribute store untouched with no handle; the success path delegates to
the wrapped `spy`, stamps the label and returns the handle. -/
theorem sectionSpySpy_eq (lookup : String → Option Elem)
    (eid : Elem → String) (s : SpyState) (attrs : Elem → Option String)
    (t : Target) (label : Option String) :
    sectionSpySpy lookup eid s attrs t label =
      match resolveTarget lookup t with
      | none => (s, attrs, false)
      | some e =>
        if eid e = "" then (s, attrs, false)
        else if e ∈ s.targets then (s, attrs, false)
        else ({ s with targets := setAdd s.targets e },
          fun x =>
            if x = e then some (label.getD (deriveLabel (eid e)))
            else attrs x,
          true) := by
  unfold sectionSpySpy spy
  cases resolveTarget lookup t with
  | none => rfl
  | some e =>
    by_cases h1 : eid e = "" <;> by_cases h2 : e ∈ s.targets <;>
      simp [h1, h2, resolveTarget]

/-- C10: `sectionSpy.spy` stamps `data-section-label` onto the element only
when the delegated registration returned a `destroy` handle; on every
rejection path (unresolvable target, element without an id, element already
registered in the underlying tracker) the attribute store is unchanged. -/
theorem c10_attribute_only_on_success (lookup : String → Option Elem)
    (eid : Elem → String) (s : SpyState) (attrs : Elem → Option String)
    (t : Target) (label : Option String) (e : Elem) :
    ((sectionSpySpy lookup eid s attrs t label).2.2 = false →
      (sectionSpySpy lookup eid s attrs t label).2.1 = attrs) ∧
    (resolveTarget lookup t = none →
      (sectionSpySpy lookup eid s attrs t label).2.2 = false) ∧
    (resolveTarget lookup t = some e → eid e = "" →
      (sectionSpySpy lookup eid s attrs t label).2.2 = false) ∧
    (resolveTarget lookup t = some e → e ∈ s.targets →
      (sectionSpySpy lookup eid s attrs t label).2.2 = false) ∧
    (resolveTarget lookup t = some e → eid e ≠ "" → e ∉ s.targets →
      (sectionSpySpy lookup eid s attrs t label).2.2 = true ∧
      (sectionSpySpy lookup eid s attrs t label).2.1 e =
        some (label.getD (deriveLabel (eid e)))) := by
  refine ⟨?_, ?_, ?_, ?_, ?_⟩
  · intro h
    rw [sectionSpySpy_eq] at h ⊢
    cases hres : resolveTarget lookup t with
    | none => rfl
    | some e' =>
      by_cases h1 : eid e' = ""
      · simp [h1]
      · by_cases h2 : e' ∈ s.targets
        · simp [h1, h2]
        · rw [hres] at h
          simp [h1, h2] at h
  · intro h
    rw [sectionSpySpy_eq, h]
  · intro h hid
    rw [sectionSpySpy_eq, h]
    simp [hid]
  · intro h hmem
    rw [sectionSpySpy_eq, h]
    by_cases h1 : eid e = "" <;> simp [h1, hmem]
  · intro h hne hmem
    rw [sectionSpySpy_eq, h]
    simp [hne, hmem]

theorem c10_attribute_only_on_success_witness :
    (resolveTarget lookup0 (Target.elem 0) = some 0 ∧ eidIntro 0 ≠ "" ∧
      (0 : Elem) ∉ s0.targets) ∧
    ((sectionSpySpy lookup0 eidIntro s0 attrs0 (Target.elem 0) none).2.2 =
        true ∧
      (sectionSpySpy lookup0 eidIntro s0 attrs0 (Target.elem 0)
          none).2.1 0 =
        some ((none : Option String).getD (deriveLabel (eidIntro 0)))) :=
  ⟨⟨rfl, by decide, by decide⟩,
    (c10_attribute_only_on_success lookup0 eidIntro s0 attrs0
        (Target.elem 0) none 0).2.2.2.2 rfl (by decide) (by decide)⟩
